import Mathlib

/-!
Shallow embedding of the IG Publisher service (main.py): a small HTTP
service that performs an OAuth2 authorization-code flow against the Graph
API, resolves the authorized page and publishing account, and publishes a
remotely hosted video through the asynchronous container protocol.

Modelling conventions:
- Python strings that may be absent become `Option String`; Python
  truthiness of such a value (`if x:`) is `truthyS` (present and
  non-empty).
- FastAPI `HTTPException(status_code, detail)` becomes `HTTPError`; the
  structured `detail` payloads (dicts carrying upstream bodies) are
  abstracted to short strings, the status codes are kept exactly.
- Every outbound network call goes through `_req` in the source; its
  response is environmental, so each function that calls upstream takes
  the (already `_req`-normalized) upstream outcome as an explicit
  parameter of type `Except HTTPError α`: `.error e` models `_req`
  raising on a status of 400 or more, `.ok v` models the parsed JSON body
  projected onto the field(s) the source reads.
- Wall-clock time in the polling loop is environmental: each poll carries
  the duration of the network round trip; the fixed sleep between polls
  is added explicitly, mirroring `time.time() - t0`.
-/

namespace IGPublisher

/-- FastAPI `HTTPException`: a status code plus a human-readable detail
(structured detail payloads are abstracted to strings). -/
structure HTTPError where
  status : Nat
  detail : String
  deriving DecidableEq, Repr

/-- Python truthiness of an optional string: present and non-empty. -/
def truthyS : Option String → Bool
  | none => false
  | some s => s ≠ ""

/-- Deployment configuration, after the `.strip()` / `.rstrip("/")`
normalization main.py applies when reading the environment. -/
structure Config where
  META_APP_ID : String
  META_APP_SECRET : String
  META_REDIRECT_URI : String
  PUBLIC_BASE_URL : String
  deriving DecidableEq, Repr

/-- `_get_redirect_uri`: the explicit override when set, else
`PUBLIC_BASE_URL ++ "/oauth/callback"` when the base URL is set, else
empty. -/
def get_redirect_uri (cfg : Config) : String :=
  if cfg.META_REDIRECT_URI ≠ "" then cfg.META_REDIRECT_URI
  else if cfg.PUBLIC_BASE_URL ≠ "" then cfg.PUBLIC_BASE_URL ++ "/oauth/callback"
  else ""

/-- The list of missing-setting names accumulated by `_require_env`, in
source order. -/
def require_env_missing (cfg : Config) : List String :=
  (if cfg.META_APP_ID = "" then ["META_APP_ID"] else []) ++
  (if cfg.META_APP_SECRET = "" then ["META_APP_SECRET"] else []) ++
  (if get_redirect_uri cfg = "" then ["META_REDIRECT_URI ou PUBLIC_BASE_URL"] else []) ++
  (if cfg.PUBLIC_BASE_URL = "" then ["PUBLIC_BASE_URL"] else [])

/-- `_require_env`: raises a 500 naming every missing setting, succeeds
otherwise. -/
def require_env (cfg : Config) : Except HTTPError Unit :=
  if require_env_missing cfg = [] then .ok ()
  else .error ⟨500, "Faltando variaveis de ambiente: " ++
    String.intercalate ", " (require_env_missing cfg)⟩

/-- The process-wide `TOKENS` record, exactly its five fields. -/
structure Tokens where
  user_access_token : Option String
  page_access_token : Option String
  ig_user_id : Option String
  page_id : Option String
  token_obtained_at : Option Nat
  deriving DecidableEq, Repr

/-- `TOKENS` at process start: every field `None`. -/
def initTokens : Tokens := ⟨none, none, none, none, none⟩

/-- The session invariant: the page-scoped token and the publishing
account id are either both present (non-empty) or both absent. -/
def tokensInv (t : Tokens) : Prop :=
  truthyS t.page_access_token = truthyS t.ig_user_id

instance (t : Tokens) : Decidable (tokensInv t) := by
  unfold tokensInv; infer_instance

/-- One entry of the `/me/accounts` response `data` array, projected onto
the fields the source reads. `instagram_business_account_id` collapses
`(p.get("instagram_business_account") or ... ).get("id")`: `none` when the
nested object or its `id` is missing. -/
structure Page where
  id : Option String
  name : Option String
  access_token : Option String
  instagram_business_account_id : Option String
  deriving DecidableEq, Repr

/-- `_exchange_code_for_user_token`, with the `_req` outcome of the token
exchange as environment; the `.ok` payload is `js.get("access_token")`.
Fails 400 when no (non-empty) token is returned. -/
def exchange_code_for_user_token (resp : Except HTTPError (Option String)) :
    Except HTTPError String :=
  match resp with
  | .error e => .error e
  | .ok (some t) => if t ≠ "" then .ok t else .error ⟨400, "Sem access_token"⟩
  | .ok none => .error ⟨400, "Sem access_token"⟩

/-- `_get_pages_and_ig`, with the `_req` outcome as environment; the `.ok`
payload is `js.get("data", [])`. Fails 400 on an empty list. -/
def get_pages_and_ig (resp : Except HTTPError (List Page)) :
    Except HTTPError (List Page) :=
  match resp with
  | .error e => .error e
  | .ok data =>
    if data = [] then
      .error ⟨400, "Nao achei paginas. Verifique permissoes e conexao Pagina-IG."⟩
    else .ok data

/-- The filter of `_pick_first_valid_page`: a non-empty linked publishing
account id and a non-empty page access token. -/
def pageQualifies (p : Page) : Bool :=
  truthyS p.instagram_business_account_id && truthyS p.access_token

/-- `_pick_first_valid_page`: first page in list order passing
`pageQualifies`; 400 when none does. -/
def pick_first_valid_page : List Page → Except HTTPError Page
  | [] => .error ⟨400, "Nenhuma pagina retornou instagram_business_account + access_token."⟩
  | p :: ps => if pageQualifies p then .ok p else pick_first_valid_page ps

/-- The upstream outcomes a single `/oauth/callback` invocation can
observe: the token-exchange response (projected onto
`js.get("access_token")`) and the `/me/accounts` response (projected onto
`js.get("data", [])`). -/
structure CallbackUpstream where
  token_exchange : Except HTTPError (Option String)
  accounts : Except HTTPError (List Page)

/-- The response of the `/oauth/callback` handler: the 400 JSON payload
returned when the platform reported an OAuth `error`, a raised
`HTTPException`, or the success HTML page. -/
inductive CallbackResult where
  | errorJson (err : String) (description : Option String)
  | httpError (e : HTTPError)
  | htmlOk
  deriving DecidableEq, Repr

/-- The HTTP status the framework sends for each `CallbackResult`:
`JSONResponse(..., status_code=400)`, the exception status, or 200 for
the HTML page. -/
def callbackHttpStatus : CallbackResult → Nat
  | .errorJson _ _ => 400
  | .httpError e => e.status
  | .htmlOk => 200

/-- `oauth_callback`: the `/oauth/callback` handler. Returns the response
together with the `TOKENS` record after the invocation (`tokens` is the
record before it). `nonce` is the process-wide `STATE_NONCE`; `now` is
`int(time.time())` at the assignment. -/
def oauth_callback (cfg : Config) (nonce : String) (tokens : Tokens)
    (code state error error_description : Option String)
    (now : Nat) (up : CallbackUpstream) : CallbackResult × Tokens :=
  match require_env cfg with
  | .error e => (.httpError e, tokens)
  | .ok _ =>
    if truthyS error then
      (.errorJson (error.getD "") error_description, tokens)
    else if ¬ truthyS code then
      (.httpError ⟨400, "Callback sem code."⟩, tokens)
    else if state ≠ some nonce then
      (.httpError ⟨400, "State invalido (possivel CSRF)."⟩, tokens)
    else
      match exchange_code_for_user_token up.token_exchange with
      | .error e => (.httpError e, tokens)
      | .ok user_token =>
        match get_pages_and_ig up.accounts with
        | .error e => (.httpError e, tokens)
        | .ok pages =>
          match pick_first_valid_page pages with
          | .error e => (.httpError e, tokens)
          | .ok chosen =>
            (.htmlOk,
              { user_access_token := some user_token
                page_access_token := chosen.access_token
                ig_user_id := chosen.instagram_business_account_id
                page_id := chosen.id
                token_obtained_at := some now })

/-- The form data `_create_container` posts, as an ordered key-value
list (Python dicts preserve insertion order): caption only when
non-empty, `share_to_feed` (serialized `"true"`/`"false"`) only for
`REELS`. -/
def create_container_data (media_type video_url page_token caption : String)
    (share_to_feed : Bool) : List (String × String) :=
  [("media_type", media_type), ("video_url", video_url), ("access_token", page_token)] ++
  (if caption ≠ "" then [("caption", caption)] else []) ++
  (if media_type = "REELS" then
    [("share_to_feed", if share_to_feed then "true" else "false")] else [])

/-- `_create_container`, with the `_req` outcome as environment; the
`.ok` payload is `js.get("id")`. Fails 400 when no (non-empty) container
id is returned. -/
def create_container (resp : Except HTTPError (Option String)) :
    Except HTTPError String :=
  match resp with
  | .error e => .error e
  | .ok (some cid) => if cid ≠ "" then .ok cid else .error ⟨400, "Sem container id"⟩
  | .ok none => .error ⟨400, "Sem container id"⟩

/-- `_publish_container`, with the `_req` outcome as environment; the
`.ok` payload is `js.get("id")`. Fails 400 when no (non-empty) media id
is returned. -/
def publish_container (resp : Except HTTPError (Option String)) :
    Except HTTPError String :=
  match resp with
  | .error e => .error e
  | .ok (some mid) => if mid ≠ "" then .ok mid else .error ⟨400, "Sem media id"⟩
  | .ok none => .error ⟨400, "Sem media id"⟩

/-- One iteration of the `_wait_container` status poll: the `_req`
outcome projected onto `js.get("status_code")`, plus the wall-clock
seconds the round trip took. -/
structure Poll where
  resp : Except HTTPError (Option String)
  duration : Nat
  deriving Repr

/-- How one `_wait_container` run ends: `FINISHED`, a raised
`HTTPException` (processing failure 400, timeout 408, or an upstream
`_req` failure), or the modelled poll sequence ran out while the loop
would keep polling. -/
inductive WaitResult where
  | finished
  | failed (e : HTTPError)
  | fuelOut
  deriving DecidableEq, Repr

/-- Default `timeout_sec` of `_wait_container`. -/
def WAIT_TIMEOUT_SEC : Nat := 20 * 60

/-- Default `poll_sec` of `_wait_container`. -/
def WAIT_POLL_SEC : Nat := 5

/-- `_wait_container`: polls statuses in order. `elapsed` is
`time.time() - t0` accumulated so far (request durations plus the fixed
sleeps); each iteration adds the poll round trip, checks the status,
then the timeout, then sleeps `poll_sec`. Also returns how many polls
were issued. -/
def wait_container (timeout_sec poll_sec elapsed : Nat) :
    List Poll → WaitResult × Nat
  | [] => (.fuelOut, 0)
  | poll :: rest =>
    match poll.resp with
    | .error e => (.failed e, 1)
    | .ok status_code =>
      let elapsed1 := elapsed + poll.duration
      if status_code = some "FINISHED" then (.finished, 1)
      else if status_code = some "ERROR" ∨ status_code = some "EXPIRED" then
        (.failed ⟨400, "Processamento falhou"⟩, 1)
      else if elapsed1 > timeout_sec then
        (.failed ⟨408, "Timeout esperando processamento do video."⟩, 1)
      else
        let r := wait_container timeout_sec poll_sec (elapsed1 + poll_sec) rest
        (r.1, r.2 + 1)

/-- The JSON body of a `/publish` request, projected onto the keys the
handler reads. `none` models an absent key; values of other JSON types
(which would raise in Python) are outside the model. -/
structure PublishPayload where
  media_type : Option String
  video_url : Option String
  caption : Option String
  share_to_feed : Option Bool
  wait : Option Bool
  deriving Repr

/-- The upstream outcomes one `/publish` invocation can observe: the
container-create response, the sequence of status polls, and the
publish-commit response. -/
structure PublishUpstream where
  create_resp : Except HTTPError (Option String)
  polls : List Poll
  publish_resp : Except HTTPError (Option String)

/-- One outbound Graph API call made by the `/publish` pipeline. The
container-create call records the form data it posts. -/
inductive Call where
  | createContainer (data : List (String × String))
  | statusPoll
  | mediaPublish
  deriving DecidableEq, Repr

/-- The success body of `/publish` (the `ok` field is constant `true`). -/
structure PublishOk where
  media_type : String
  container_id : String
  media_id : String
  deriving DecidableEq, Repr

/-- Outcome of a route handler: a response, a raised `HTTPException`, or
divergence (only `/publish` with an endless non-terminal poll sequence;
`diverges` marks that the modelled poll list ran out while the loop would
keep polling). -/
inductive RouteResult (α : Type) where
  | ok (val : α)
  | err (e : HTTPError)
  | diverges
  deriving DecidableEq, Repr

/-- Python `x or d` for an optional string `x`: `d` when `x` is absent or
empty. -/
def orDefault (x : Option String) (d : String) : String :=
  match x with
  | some s => if s ≠ "" then s else d
  | none => d

/-- Python `str.upper()` (over the ASCII alphabet this service
handles). -/
def pyUpper (s : String) : String := ⟨s.data.map Char.toUpper⟩

/-- Python `str.strip()`: drop leading and trailing whitespace. -/
def pyStrip (s : String) : String :=
  ⟨((s.data.dropWhile Char.isWhitespace).reverse.dropWhile Char.isWhitespace).reverse⟩

/-- Python `str.startswith(pre)`. -/
def pyStartsWith (s pre : String) : Bool := pre.data.isPrefixOf s.data

/-- The normalized `media_type` of a `/publish` request:
`(payload.get("media_type") or "REELS").upper().strip()`. -/
def publishMediaType (payload : PublishPayload) : String :=
  pyStrip (pyUpper (orDefault payload.media_type "REELS"))

/-- The normalized `video_url`: `(payload.get("video_url") or "").strip()`. -/
def publishVideoUrl (payload : PublishPayload) : String :=
  pyStrip (orDefault payload.video_url "")

/-- The normalized `caption`: `(payload.get("caption") or "").strip()`. -/
def publishCaption (payload : PublishPayload) : String :=
  pyStrip (orDefault payload.caption "")

/-- `bool(payload.get("share_to_feed", True))`: defaults to `true`. -/
def publishShareToFeed (payload : PublishPayload) : Bool :=
  payload.share_to_feed.getD true

/-- `bool(payload.get("wait", True))`: defaults to `true`. -/
def publishDoWait (payload : PublishPayload) : Bool :=
  payload.wait.getD true

/-- The `media_type` whitelist of `/publish`. -/
def mediaTypeValid (mt : String) : Bool :=
  mt = "REELS" || mt = "VIDEO" || mt = "STORIES"

/-- The tail of the `/publish` pipeline: commit the container and build
the success body. -/
def publishCommit (mt cid : String) (resp : Except HTTPError (Option String)) :
    RouteResult PublishOk :=
  match publish_container resp with
  | .error e => .err e
  | .ok mid => .ok ⟨mt, cid, mid⟩

/-- `publish`: the `/publish` handler. Returns the outcome together with
the ordered list of outbound Graph API calls it issued. -/
def publishRoute (tokens : Tokens) (payload : PublishPayload)
    (up : PublishUpstream) : RouteResult PublishOk × List Call :=
  if ¬ (truthyS tokens.page_access_token && truthyS tokens.ig_user_id) then
    (.err ⟨401, "Sem tokens. Acesse login primeiro."⟩, [])
  else if ¬ mediaTypeValid (publishMediaType payload) then
    (.err ⟨400, "media_type invalido. Use REELS, VIDEO ou STORIES."⟩, [])
  else if ¬ pyStartsWith (publishVideoUrl payload) "https://" then
    (.err ⟨400, "video_url precisa ser https e publico (Meta tem que acessar)."⟩, [])
  else
    let mt := publishMediaType payload
    let data := create_container_data mt (publishVideoUrl payload)
      (tokens.page_access_token.getD "") (publishCaption payload)
      (publishShareToFeed payload)
    match create_container up.create_resp with
    | .error e => (.err e, [.createContainer data])
    | .ok cid =>
      if publishDoWait payload then
        match wait_container WAIT_TIMEOUT_SEC WAIT_POLL_SEC 0 up.polls with
        | (.finished, n) =>
          (publishCommit mt cid up.publish_resp,
            .createContainer data :: (List.replicate n .statusPoll ++ [.mediaPublish]))
        | (.failed e, n) =>
          (.err e, .createContainer data :: List.replicate n .statusPoll)
        | (.fuelOut, n) =>
          (.diverges, .createContainer data :: List.replicate n .statusPoll)
      else
        (publishCommit mt cid up.publish_resp, [.createContainer data, .mediaPublish])

/-- The `/status` response body, field for field. -/
structure StatusResponse where
  has_user_token : Bool
  has_page_token : Bool
  page_id : Option String
  ig_user_id : Option String
  token_obtained_at : Option Nat
  scopes : String
  redirect_uri : String
  public_base_url : String
  deriving DecidableEq, Repr

/-- `status`: the `/status` handler. It performs no environment check
and always returns a 200 JSON body built from the session record and the
configuration. -/
def statusRoute (cfg : Config) (scopes : String) (tokens : Tokens) :
    StatusResponse :=
  { has_user_token := truthyS tokens.user_access_token
    has_page_token := truthyS tokens.page_access_token
    page_id := tokens.page_id
    ig_user_id := tokens.ig_user_id
    token_obtained_at := tokens.token_obtained_at
    scopes := scopes
    redirect_uri := get_redirect_uri cfg
    public_base_url := cfg.PUBLIC_BASE_URL }

/-- `health`: the `/health` handler, `(ok, has_token)`. -/
def healthRoute (tokens : Tokens) : Bool × Bool :=
  (true, truthyS tokens.user_access_token)

/-- `home`: the `/` handler; checks the environment, then serves a fixed
HTML menu (content abstracted). -/
def homeRoute (cfg : Config) : Except HTTPError String :=
  match require_env cfg with
  | .error e => .error e
  | .ok _ => .ok "IG Publisher (Railway) menu"

/-- `requests.utils.quote` with empty `safe`: percent-encode every UTF-8
byte outside the unreserved set. -/
def pctQuote (s : String) : String :=
  String.join (s.toUTF8.toList.map (fun b =>
    let c := Char.ofNat b.toNat
    if b.toNat < 128 && (c.isAlphanum || c = '_' || c = '.' || c = '-' || c = '~') then
      String.singleton c
    else
      let hex := fun (n : Nat) => String.singleton ("0123456789ABCDEF".toList.getD n '0')
      "%" ++ hex (b.toNat / 16) ++ hex (b.toNat % 16)))

/-- `login`: the `/login` handler; checks the environment, then returns
the authorization-dialog URL used for the redirect. -/
def loginRoute (cfg : Config) (scopes nonce : String) : Except HTTPError String :=
  match require_env cfg with
  | .error e => .error e
  | .ok _ =>
    .ok ("https://www.facebook.com/dialog/oauth?client_id=" ++ cfg.META_APP_ID ++
      "&redirect_uri=" ++ pctQuote (get_redirect_uri cfg) ++
      "&state=" ++ nonce ++
      "&scope=" ++ pctQuote scopes ++
      "&response_type=code")

/-! Helper lemmas -/

/-- A page returned by `pick_first_valid_page` passes the filter. -/
theorem pick_first_valid_page_ok_qualifies :
    ∀ (ps : List Page) (p : Page),
      pick_first_valid_page ps = .ok p → pageQualifies p = true
  | [], p, h => by simp [pick_first_valid_page] at h
  | q :: qs, p, h => by
    by_cases hq : pageQualifies q = true
    · simp [pick_first_valid_page, hq] at h
      exact h ▸ hq
    · simp [pick_first_valid_page, hq] at h
      exact pick_first_valid_page_ok_qualifies qs p h

/-- When no page qualifies, selection raises the 400. -/
theorem pick_first_valid_page_all_bad :
    ∀ (ps : List Page), (∀ q ∈ ps, pageQualifies q = false) →
      pick_first_valid_page ps =
        .error ⟨400, "Nenhuma pagina retornou instagram_business_account + access_token."⟩
  | [], _ => rfl
  | q :: qs, h => by
    have hq := h q (List.mem_cons_self q qs)
    simp [pick_first_valid_page, hq]
    exact pick_first_valid_page_all_bad qs (fun r hr => h r (List.mem_cons_of_mem q hr))

/-- Selection skips non-qualifying pages and returns the first
qualifying one. -/
theorem pick_first_valid_page_first :
    ∀ (pre post : List Page) (p : Page),
      (∀ q ∈ pre, pageQualifies q = false) → pageQualifies p = true →
      pick_first_valid_page (pre ++ p :: post) = .ok p
  | [], _, p, _, hp => by simp [pick_first_valid_page, hp]
  | q :: qs, post, p, h, hp => by
    have hq := h q (List.mem_cons_self q qs)
    simp only [List.cons_append, pick_first_valid_page, hq]
    simp only [Bool.false_eq_true, if_false]
    exact pick_first_valid_page_first qs post p
      (fun r hr => h r (List.mem_cons_of_mem q hr)) hp

/-- On every non-success outcome the callback leaves the session record
untouched. -/
theorem oauth_callback_ne_html_unchanged (cfg : Config) (nonce : String) (t : Tokens)
    (code state error ed : Option String) (now : Nat) (up : CallbackUpstream) :
    (oauth_callback cfg nonce t code state error ed now up).1 ≠ .htmlOk →
    (oauth_callback cfg nonce t code state error ed now up).2 = t := by
  unfold oauth_callback
  rcases require_env cfg with e | u
  · simp
  · by_cases herr : truthyS error = true
    · simp [herr]
    · by_cases hcode : truthyS code = true
      · by_cases hstate : state = some nonce
        · rcases hex : exchange_code_for_user_token up.token_exchange with e | ut
          · simp [herr, hcode, hstate, hex]
          · rcases hpg : get_pages_and_ig up.accounts with e | pages
            · simp [herr, hcode, hstate, hex, hpg]
            · rcases hpk : pick_first_valid_page pages with e | chosen
              · simp [herr, hcode, hstate, hex, hpg, hpk]
              · simp [herr, hcode, hstate, hex, hpg, hpk]
        · simp [herr, hcode, hstate]
      · simp [herr, hcode]

/-- The callback succeeds exactly when the environment is complete, the
platform reported no error, a code is present, the state matches, and
all three upstream stages succeed; none of these conditions mention the
prior session record. -/
theorem oauth_callback_html_iff (cfg : Config) (nonce : String) (t : Tokens)
    (code state error ed : Option String) (now : Nat) (up : CallbackUpstream) :
    (oauth_callback cfg nonce t code state error ed now up).1 = .htmlOk ↔
      (require_env_missing cfg = [] ∧ truthyS error = false ∧ truthyS code = true ∧
        state = some nonce ∧
        (∃ u, exchange_code_for_user_token up.token_exchange = .ok u) ∧
        (∃ pages chosen, get_pages_and_ig up.accounts = .ok pages ∧
          pick_first_valid_page pages = .ok chosen)) := by
  unfold oauth_callback
  rcases hre : require_env cfg with e | u
  · have hm : require_env_missing cfg ≠ [] := by
      intro h; simp [require_env, h] at hre
    simp [hm]
  · have hm : require_env_missing cfg = [] := by
      by_contra h; simp [require_env, h] at hre
    by_cases herr : truthyS error = true
    · simp [herr, hm]
    · by_cases hcode : truthyS code = true
      · by_cases hstate : state = some nonce
        · rcases hex : exchange_code_for_user_token up.token_exchange with e | ut
          · simp [herr, hcode, hstate, hm, hex]
          · rcases hpg : get_pages_and_ig up.accounts with e | pages
            · simp [herr, hcode, hstate, hm, hex, hpg]
            · rcases hpk : pick_first_valid_page pages with e | chosen
              · simp [herr, hcode, hstate, hm, hex, hpg, hpk]
              · simp [herr, hcode, hstate, hm, hex, hpg, hpk]
        · simp [herr, hcode, hstate, hm]
      · simp [herr, hcode, hm]

/-- On success the callback installs exactly the record built from the
exchanged user token, the chosen page, and the timestamp. -/
theorem oauth_callback_success_eq (cfg : Config) (nonce : String) (t : Tokens)
    (code state error ed : Option String) (now : Nat) (up : CallbackUpstream)
    (u : String) (pages : List Page) (chosen : Page)
    (hm : require_env_missing cfg = []) (herr : truthyS error = false)
    (hcode : truthyS code = true) (hstate : state = some nonce)
    (hex : exchange_code_for_user_token up.token_exchange = .ok u)
    (hpg : get_pages_and_ig up.accounts = .ok pages)
    (hpk : pick_first_valid_page pages = .ok chosen) :
    oauth_callback cfg nonce t code state error ed now up =
      (.htmlOk, ⟨some u, chosen.access_token, chosen.instagram_business_account_id,
        chosen.id, some now⟩) := by
  simp [oauth_callback, require_env, hm, herr, hcode, hstate, hex, hpg, hpk]

/-! Claim theorems -/

/-- C1: every callback invocation whose `state` differs from the
anti-forgery token leaves the five-field session record unchanged and
never succeeds, whether or not `code` is present or the upstream
exchange would have succeeded; on a complete configuration (where the
spec-mandated 500 config check does not fire first) the response status
is 400 (the platform-error JSON, the missing-code rejection, or the
CSRF rejection). -/
theorem oauth_callback_bad_state (cfg : Config) (nonce : String) (tokens : Tokens)
    (code state error ed : Option String) (now : Nat) (up : CallbackUpstream)
    (hstate : state ≠ some nonce) :
    (oauth_callback cfg nonce tokens code state error ed now up).2 = tokens ∧
    (oauth_callback cfg nonce tokens code state error ed now up).1 ≠ .htmlOk ∧
    (require_env_missing cfg = [] →
      callbackHttpStatus (oauth_callback cfg nonce tokens code state error ed now up).1 =
        400) := by
  have hne : (oauth_callback cfg nonce tokens code state error ed now up).1 ≠ .htmlOk := by
    intro h
    obtain ⟨_, _, _, hst, _⟩ :=
      (oauth_callback_html_iff cfg nonce tokens code state error ed now up).mp h
    exact hstate hst
  refine ⟨oauth_callback_ne_html_unchanged cfg nonce tokens code state error ed now up hne,
    hne, ?_⟩
  intro hcfg
  by_cases herr : truthyS error = true
  · simp [oauth_callback, require_env, hcfg, herr, callbackHttpStatus]
  · by_cases hcode : truthyS code = true
    · simp [oauth_callback, require_env, hcfg, herr, hcode, hstate, callbackHttpStatus]
    · simp [oauth_callback, require_env, hcfg, herr, hcode, callbackHttpStatus]

/-- Witness for C1: mismatched state with a valid code and an upstream
environment that would otherwise succeed. -/
theorem oauth_callback_bad_state_witness :
    (oauth_callback ⟨"id1", "sec1", "", "https://base"⟩ "N" initTokens
        (some "abc") (some "X") none none 7
        ⟨.ok (some "U1"), .ok [⟨some "pg1", some "Pg", some "P1", some "ig1"⟩]⟩).2 =
      initTokens ∧
    callbackHttpStatus (oauth_callback ⟨"id1", "sec1", "", "https://base"⟩ "N" initTokens
        (some "abc") (some "X") none none 7
        ⟨.ok (some "U1"), .ok [⟨some "pg1", some "Pg", some "P1", some "ig1"⟩]⟩).1 = 400 := by
  have h := oauth_callback_bad_state ⟨"id1", "sec1", "", "https://base"⟩ "N" initTokens
    (some "abc") (some "X") none none 7
    ⟨.ok (some "U1"), .ok [⟨some "pg1", some "Pg", some "P1", some "ig1"⟩]⟩ (by decide)
  exact ⟨h.1, h.2.2 (by decide)⟩

/-- C2: a successful callback replaces the whole session record with
values computed from the exchange and the chosen page alone (the same
record results from any prior session state), the chosen page has both a
non-empty page token and a non-empty publishing-account id, and the
both-present-or-both-absent invariant holds initially and is preserved
by every callback invocation (the remaining routes never write the
record). -/
theorem oauth_callback_full_overwrite (cfg : Config) (nonce : String)
    (t1 t2 : Tokens) (code state error ed : Option String) (now : Nat)
    (up : CallbackUpstream) :
    tokensInv initTokens ∧
    (tokensInv t1 →
      tokensInv (oauth_callback cfg nonce t1 code state error ed now up).2) ∧
    ((oauth_callback cfg nonce t1 code state error ed now up).1 = .htmlOk →
      (∃ u chosen, pageQualifies chosen = true ∧
        truthyS chosen.access_token = true ∧
        truthyS chosen.instagram_business_account_id = true ∧
        (oauth_callback cfg nonce t1 code state error ed now up).2 =
          ⟨some u, chosen.access_token, chosen.instagram_business_account_id,
            chosen.id, some now⟩) ∧
      oauth_callback cfg nonce t2 code state error ed now up =
        ((oauth_callback cfg nonce t1 code state error ed now up).1,
          (oauth_callback cfg nonce t1 code state error ed now up).2)) := by
  refine ⟨rfl, ?_, ?_⟩
  · intro hinv
    by_cases hsucc : (oauth_callback cfg nonce t1 code state error ed now up).1 = .htmlOk
    · obtain ⟨hm, herr, hcode, hstate, ⟨u, hex⟩, pages, chosen, hpg, hpk⟩ :=
        (oauth_callback_html_iff cfg nonce t1 code state error ed now up).mp hsucc
      have hq := pick_first_valid_page_ok_qualifies pages chosen hpk
      simp only [pageQualifies, Bool.and_eq_true] at hq
      rw [oauth_callback_success_eq cfg nonce t1 code state error ed now up
        u pages chosen hm herr hcode hstate hex hpg hpk]
      simp [tokensInv, hq.1, hq.2]
    · rw [oauth_callback_ne_html_unchanged cfg nonce t1 code state error ed now up hsucc]
      exact hinv
  · intro hsucc
    obtain ⟨hm, herr, hcode, hstate, ⟨u, hex⟩, pages, chosen, hpg, hpk⟩ :=
      (oauth_callback_html_iff cfg nonce t1 code state error ed now up).mp hsucc
    have hq := pick_first_valid_page_ok_qualifies pages chosen hpk
    have hq2 := hq
    simp only [pageQualifies, Bool.and_eq_true] at hq2
    have heq1 := oauth_callback_success_eq cfg nonce t1 code state error ed now up
      u pages chosen hm herr hcode hstate hex hpg hpk
    have heq2 := oauth_callback_success_eq cfg nonce t2 code state error ed now up
      u pages chosen hm herr hcode hstate hex hpg hpk
    refine ⟨⟨u, chosen, hq, hq2.2, hq2.1, ?_⟩, ?_⟩
    · rw [heq1]
    · rw [heq1, heq2]

/-- Witness for C2: a successful callback over a dirty prior session
installs the same record as over the initial one. -/
theorem oauth_callback_full_overwrite_witness :
    tokensInv (oauth_callback ⟨"id1", "sec1", "", "https://base"⟩ "N"
        ⟨some "OLD", some "OLDP", some "OLDIG", some "OLDPG", some 1⟩
        (some "abc") (some "N") none none 7
        ⟨.ok (some "U1"), .ok [⟨some "pg1", some "Pg", some "P1", some "ig1"⟩]⟩).2 ∧
    oauth_callback ⟨"id1", "sec1", "", "https://base"⟩ "N" initTokens
        (some "abc") (some "N") none none 7
        ⟨.ok (some "U1"), .ok [⟨some "pg1", some "Pg", some "P1", some "ig1"⟩]⟩ =
      ((oauth_callback ⟨"id1", "sec1", "", "https://base"⟩ "N"
          ⟨some "OLD", some "OLDP", some "OLDIG", some "OLDPG", some 1⟩
          (some "abc") (some "N") none none 7
          ⟨.ok (some "U1"), .ok [⟨some "pg1", some "Pg", some "P1", some "ig1"⟩]⟩).1,
        (oauth_callback ⟨"id1", "sec1", "", "https://base"⟩ "N"
          ⟨some "OLD", some "OLDP", some "OLDIG", some "OLDPG", some 1⟩
          (some "abc") (some "N") none none 7
          ⟨.ok (some "U1"), .ok [⟨some "pg1", some "Pg", some "P1", some "ig1"⟩]⟩).2) := by
  have h := oauth_callback_full_overwrite ⟨"id1", "sec1", "", "https://base"⟩ "N"
    ⟨some "OLD", some "OLDP", some "OLDIG", some "OLDPG", some 1⟩ initTokens
    (some "abc") (some "N") none none 7
    ⟨.ok (some "U1"), .ok [⟨some "pg1", some "Pg", some "P1", some "ig1"⟩]⟩
  exact ⟨h.2.1 (by decide), (h.2.2 (by decide)).2⟩

/-- C3: account resolution fails with a 400 error on an empty upstream
page list; otherwise it returns the first page in list order having both
a non-empty linked publishing-account id and a non-empty page access
token, skipping earlier pages lacking either field, and fails with a 400
error when no page qualifies. -/
theorem account_resolution_first_match (ps pre post : List Page) (p : Page) :
    (∃ e, get_pages_and_ig (.ok []) = .error e ∧ e.status = 400) ∧
    ((∀ q ∈ ps, pageQualifies q = false) →
      ∃ e, pick_first_valid_page ps = .error e ∧ e.status = 400) ∧
    ((∀ q ∈ pre, pageQualifies q = false) → pageQualifies p = true →
      pick_first_valid_page (pre ++ p :: post) = .ok p) := by
  refine ⟨⟨_, rfl, rfl⟩, ?_, ?_⟩
  · intro hall
    exact ⟨_, pick_first_valid_page_all_bad ps hall, rfl⟩
  · intro hpre hp
    exact pick_first_valid_page_first pre post p hpre hp

/-- Witness for C3 at concrete inputs: a page lacking the publishing
account is skipped or rejected. -/
theorem account_resolution_first_match_witness :
    (∃ e, pick_first_valid_page [⟨some "pg0", some "NoIG", some "T0", none⟩] = .error e ∧
      e.status = 400) ∧
    pick_first_valid_page
        [⟨some "pg0", some "NoIG", some "T0", none⟩, ⟨some "pg1", some "Ok", some "P1", some "ig1"⟩] =
      .ok ⟨some "pg1", some "Ok", some "P1", some "ig1"⟩ := by
  have h := account_resolution_first_match
    [⟨some "pg0", some "NoIG", some "T0", none⟩]
    [⟨some "pg0", some "NoIG", some "T0", none⟩]
    [] ⟨some "pg1", some "Ok", some "P1", some "ig1"⟩
  exact ⟨h.2.1 (by decide), h.2.2 (by decide) (by decide)⟩

/-- C4: for the processing wait with its default 1200-second timeout
and fixed 5-second poll interval, a polled `FINISHED` is terminal
success; `ERROR` or `EXPIRED` fails with a 400 and ignores every later
poll (never retried); a non-terminal status with the elapsed time past
the timeout fails with a 408; and a non-terminal status within the
timeout continues polling after the fixed 5-second sleep. -/
theorem wait_container_terminal_behavior (st : Option String) (d elapsed : Nat)
    (rest : List Poll) :
    WAIT_TIMEOUT_SEC = 1200 ∧ WAIT_POLL_SEC = 5 ∧
    wait_container WAIT_TIMEOUT_SEC WAIT_POLL_SEC elapsed
        (⟨.ok (some "FINISHED"), d⟩ :: rest) = (.finished, 1) ∧
    ((st = some "ERROR" ∨ st = some "EXPIRED") →
      wait_container WAIT_TIMEOUT_SEC WAIT_POLL_SEC elapsed (⟨.ok st, d⟩ :: rest) =
        (.failed ⟨400, "Processamento falhou"⟩, 1)) ∧
    (st ≠ some "FINISHED" → st ≠ some "ERROR" → st ≠ some "EXPIRED" →
      elapsed + d > WAIT_TIMEOUT_SEC →
      wait_container WAIT_TIMEOUT_SEC WAIT_POLL_SEC elapsed (⟨.ok st, d⟩ :: rest) =
        (.failed ⟨408, "Timeout esperando processamento do video."⟩, 1)) ∧
    (st ≠ some "FINISHED" → st ≠ some "ERROR" → st ≠ some "EXPIRED" →
      elapsed + d ≤ WAIT_TIMEOUT_SEC →
      wait_container WAIT_TIMEOUT_SEC WAIT_POLL_SEC elapsed (⟨.ok st, d⟩ :: rest) =
        ((wait_container WAIT_TIMEOUT_SEC WAIT_POLL_SEC (elapsed + d + WAIT_POLL_SEC) rest).1,
          (wait_container WAIT_TIMEOUT_SEC WAIT_POLL_SEC (elapsed + d + WAIT_POLL_SEC) rest).2 + 1)) := by
  refine ⟨rfl, rfl, by simp [wait_container], ?_, ?_, ?_⟩
  · rintro (rfl | rfl) <;> simp [wait_container]
  · intro h1 h2 h3 h4
    simp [wait_container, h1, h2, h3, h4]
  · intro h1 h2 h3 h4
    simp [wait_container, h1, h2, h3, Nat.not_lt.mpr h4]

/-- Witness for C4 at concrete polls: an `ERROR` status fails with 400
even when a later poll would have finished, and a late non-terminal
status fails with 408. -/
theorem wait_container_terminal_behavior_witness :
    wait_container WAIT_TIMEOUT_SEC WAIT_POLL_SEC 0
        (⟨.ok (some "ERROR"), 1⟩ :: [⟨.ok (some "FINISHED"), 1⟩]) =
      (.failed ⟨400, "Processamento falhou"⟩, 1) ∧
    wait_container WAIT_TIMEOUT_SEC WAIT_POLL_SEC 0 (⟨.ok (some "IN_PROGRESS"), 1201⟩ :: []) =
      (.failed ⟨408, "Timeout esperando processamento do video."⟩, 1) := by
  have h1 := wait_container_terminal_behavior (some "ERROR") 1 0 [⟨.ok (some "FINISHED"), 1⟩]
  have h2 := wait_container_terminal_behavior (some "IN_PROGRESS") 1201 0 []
  exact ⟨h1.2.2.2.1 (Or.inl rfl),
    h2.2.2.2.2.1 (by decide) (by decide) (by decide) (by decide)⟩

/-- C5: a `/publish` request with an authorized session whose trimmed
`video_url` does not start with `https://` fails with a 400 validation
error and issues no upstream call. -/
theorem publish_rejects_non_https (tokens : Tokens) (payload : PublishPayload)
    (up : PublishUpstream)
    (hauth : (truthyS tokens.page_access_token && truthyS tokens.ig_user_id) = true)
    (hurl : pyStartsWith (publishVideoUrl payload) "https://" = false) :
    ∃ e, publishRoute tokens payload up = (.err e, []) ∧ e.status = 400 := by
  by_cases hmt : mediaTypeValid (publishMediaType payload) = true
  · exact ⟨⟨400, "video_url precisa ser https e publico (Meta tem que acessar)."⟩,
      by simp [publishRoute, hauth, hmt, hurl], rfl⟩
  · exact ⟨⟨400, "media_type invalido. Use REELS, VIDEO ou STORIES."⟩,
      by simp [publishRoute, hauth, hmt], rfl⟩

/-- Witness for C5: authorized session, `http://` URL. -/
theorem publish_rejects_non_https_witness :
    ∃ e, publishRoute ⟨some "U1", some "P1", some "ig1", some "pg1", some 7⟩
        ⟨some "REELS", some "http://x/v.mp4", none, none, none⟩
        ⟨.ok (some "C1"), [], .ok (some "M1")⟩ = (.err e, []) ∧ e.status = 400 :=
  publish_rejects_non_https _ _ _ (by decide) (by decide)

/-- C6: a `/publish` request while the session lacks a page access token
or a publishing-account id fails with a 401 and issues no upstream
call. -/
theorem publish_requires_authorization (tokens : Tokens) (payload : PublishPayload)
    (up : PublishUpstream)
    (h : truthyS tokens.page_access_token = false ∨ truthyS tokens.ig_user_id = false) :
    publishRoute tokens payload up =
      (.err ⟨401, "Sem tokens. Acesse login primeiro."⟩, []) := by
  rcases h with h | h <;> simp [publishRoute, h]

/-- Witness for C6: the initial (pre-authorization) session record. -/
theorem publish_requires_authorization_witness :
    publishRoute initTokens ⟨some "REELS", some "https://x/v.mp4", none, none, none⟩
        ⟨.ok (some "C1"), [], .ok (some "M1")⟩ =
      (.err ⟨401, "Sem tokens. Acesse login primeiro."⟩, []) :=
  publish_requires_authorization _ _ _ (Or.inl rfl)

/-- C9: the container-create form data includes `caption` exactly when
the caption is non-empty and `share_to_feed` (serialized
`"true"`/`"false"`, defaulting to `true` when the request omits it)
exactly when the media type is `REELS`; and the call fails with a 400
when the upstream response carries no container id. -/
theorem create_container_form_and_id (mt url tok cap : String) (share : Bool)
    (payload : PublishPayload) (hdef : payload.share_to_feed = none) :
    ((∃ v, ("caption", v) ∈ create_container_data mt url tok cap share) ↔ cap ≠ "") ∧
    ((∃ v, ("share_to_feed", v) ∈ create_container_data mt url tok cap share) ↔
      mt = "REELS") ∧
    (mt = "REELS" →
      ("share_to_feed", if share then "true" else "false") ∈
        create_container_data mt url tok cap share) ∧
    publishShareToFeed payload = true ∧
    create_container (.ok none) = .error ⟨400, "Sem container id"⟩ ∧
    create_container (.ok (some "")) = .error ⟨400, "Sem container id"⟩ := by
  refine ⟨?_, ?_, ?_, ?_, rfl, rfl⟩
  · by_cases hcap : cap = "" <;>
      by_cases hmt : mt = "REELS" <;>
        simp [create_container_data, hcap, hmt]
  · by_cases hcap : cap = "" <;>
      by_cases hmt : mt = "REELS" <;>
        simp [create_container_data, hcap, hmt]
  · intro hmt
    by_cases hcap : cap = "" <;> simp [create_container_data, hcap, hmt]
  · simp [publishShareToFeed, hdef]

/-- Witness for C9 at concrete inputs: a `REELS` container with a
non-empty caption and the default share flag. -/
theorem create_container_form_and_id_witness :
    (∃ v, ("caption", v) ∈ create_container_data "REELS" "https://x/v.mp4" "P1" "hi" true) ∧
    ("share_to_feed", "true") ∈ create_container_data "REELS" "https://x/v.mp4" "P1" "hi" true ∧
    publishShareToFeed ⟨some "REELS", some "https://x/v.mp4", some "hi", none, none⟩ = true ∧
    create_container (.ok none) = .error ⟨400, "Sem container id"⟩ := by
  have h := create_container_form_and_id "REELS" "https://x/v.mp4" "P1" "hi" true
    ⟨some "REELS", some "https://x/v.mp4", some "hi", none, none⟩ rfl
  exact ⟨h.1.mpr (by decide), h.2.2.1 rfl, h.2.2.2.1, h.2.2.2.2.1⟩

/-- C10: a missing or empty `media_type` is treated as `REELS`; a
supplied one is uppercased and trimmed before validation, so lowercase
spellings are accepted; and with an authorized session only values whose
normalization is outside the whitelist produce the 400 validation error,
while whitelisted normalizations (with a valid URL) proceed to upstream
calls. -/
theorem publish_media_type_normalization (tokens : Tokens) (payload : PublishPayload)
    (up : PublishUpstream)
    (hauth : (truthyS tokens.page_access_token && truthyS tokens.ig_user_id) = true) :
    (payload.media_type = none ∨ payload.media_type = some "" →
      publishMediaType payload = "REELS") ∧
    (∀ s, payload.media_type = some s → s ≠ "" →
      publishMediaType payload = pyStrip (pyUpper s)) ∧
    (payload.media_type = some "video" → publishMediaType payload = "VIDEO") ∧
    (mediaTypeValid (publishMediaType payload) = false →
      publishRoute tokens payload up =
        (.err ⟨400, "media_type invalido. Use REELS, VIDEO ou STORIES."⟩, [])) ∧
    (mediaTypeValid (publishMediaType payload) = true →
      pyStartsWith (publishVideoUrl payload) "https://" = true →
      (publishRoute tokens payload up).2 ≠ []) := by
  refine ⟨?_, ?_, ?_, ?_, ?_⟩
  · rintro (h | h) <;> simp [publishMediaType, orDefault, h] <;> decide
  · intro s hs hne
    simp [publishMediaType, orDefault, hs, hne]
  · intro h
    simp [publishMediaType, orDefault, h]
    decide
  · intro hmt
    simp [publishRoute, hauth, hmt]
  · intro hmt hurl
    rcases hc : create_container up.create_resp with e | cid
    · simp [publishRoute, hauth, hmt, hurl, hc]
    · by_cases hw : publishDoWait payload = true
      · rcases hwc : wait_container WAIT_TIMEOUT_SEC WAIT_POLL_SEC 0 up.polls with ⟨wr, n⟩
        cases wr <;> simp [publishRoute, hauth, hmt, hurl, hc, hw, hwc]
      · simp [publishRoute, hauth, hmt, hurl, hc, hw]

/-- Witness for C10: lowercase `"video"` is accepted and reaches the
container-create call. -/
theorem publish_media_type_normalization_witness :
    publishMediaType ⟨some "video", some "https://x/v.mp4", none, none, some false⟩ = "VIDEO" ∧
    (publishRoute ⟨some "U1", some "P1", some "ig1", some "pg1", some 7⟩
        ⟨some "video", some "https://x/v.mp4", none, none, some false⟩
        ⟨.ok (some "C1"), [], .ok (some "M1")⟩).2 ≠ [] := by
  have h := publish_media_type_normalization
    ⟨some "U1", some "P1", some "ig1", some "pg1", some 7⟩
    ⟨some "video", some "https://x/v.mp4", none, none, some false⟩
    ⟨.ok (some "C1"), [], .ok (some "M1")⟩ (by decide)
  exact ⟨h.2.2.1 rfl, h.2.2.2.2 (by decide) (by decide)⟩

/-- Membership in the missing-settings report, characterized. -/
theorem require_env_missing_mem (cfg : Config) (x : String) :
    x ∈ require_env_missing cfg ↔
      (x = "META_APP_ID" ∧ cfg.META_APP_ID = "") ∨
      (x = "META_APP_SECRET" ∧ cfg.META_APP_SECRET = "") ∨
      (x = "META_REDIRECT_URI ou PUBLIC_BASE_URL" ∧ get_redirect_uri cfg = "") ∨
      (x = "PUBLIC_BASE_URL" ∧ cfg.PUBLIC_BASE_URL = "") := by
  unfold require_env_missing
  by_cases h1 : cfg.META_APP_ID = "" <;>
    by_cases h2 : cfg.META_APP_SECRET = "" <;>
      by_cases h3 : get_redirect_uri cfg = "" <;>
        by_cases h4 : cfg.PUBLIC_BASE_URL = "" <;>
          simp [h1, h2, h3, h4]

/-- An incomplete environment makes `require_env` raise the 500 naming
the missing settings. -/
theorem require_env_error_of_missing (cfg : Config)
    (h : ¬ require_env_missing cfg = []) :
    require_env cfg = .error ⟨500, "Faltando variaveis de ambiente: " ++
      String.intercalate ", " (require_env_missing cfg)⟩ := by
  simp [require_env, h]

/-- C7 counterexample: with every required setting missing, the `/status`
route still returns its normal 200 body instead of the 500 the
environment check raises, even though its output is built from the
configuration (it changes when the redirect-URI setting changes) — so
the check is not invoked at the top of every configuration-dependent
route. -/
theorem status_route_skips_env_check :
    require_env_missing ⟨"", "", "", ""⟩ ≠ [] ∧
    statusRoute ⟨"", "", "", ""⟩ "scopes" initTokens =
      ⟨false, false, none, none, none, "scopes", "", ""⟩ ∧
    statusRoute ⟨"", "", "", ""⟩ "scopes" initTokens ≠
      statusRoute ⟨"", "", "https://cb", ""⟩ "scopes" initTokens := by
  refine ⟨by decide, rfl, by decide⟩

/-- C7 (amended): the effective redirect URI is the explicit override
when set, else the public base URL extended with `/oauth/callback`, else
empty; the environment check fails with a 500 naming exactly the missing
settings among client id, client secret, effective redirect URI, and
public base URL; and it is invoked at the top of the landing, login, and
OAuth callback routes — but the status route reads and reports the
configuration without invoking it. -/
theorem env_check_guards_oauth_routes (cfg : Config) (scopes nonce : String)
    (t : Tokens) (code state error ed : Option String) (now : Nat)
    (up : CallbackUpstream) :
    (cfg.META_REDIRECT_URI ≠ "" → get_redirect_uri cfg = cfg.META_REDIRECT_URI) ∧
    (cfg.META_REDIRECT_URI = "" → cfg.PUBLIC_BASE_URL ≠ "" →
      get_redirect_uri cfg = cfg.PUBLIC_BASE_URL ++ "/oauth/callback") ∧
    (cfg.META_REDIRECT_URI = "" → cfg.PUBLIC_BASE_URL = "" →
      get_redirect_uri cfg = "") ∧
    (cfg.META_APP_ID = "" ↔ "META_APP_ID" ∈ require_env_missing cfg) ∧
    (cfg.META_APP_SECRET = "" ↔ "META_APP_SECRET" ∈ require_env_missing cfg) ∧
    (get_redirect_uri cfg = "" ↔
      "META_REDIRECT_URI ou PUBLIC_BASE_URL" ∈ require_env_missing cfg) ∧
    (cfg.PUBLIC_BASE_URL = "" ↔ "PUBLIC_BASE_URL" ∈ require_env_missing cfg) ∧
    (require_env_missing cfg ≠ [] →
      (∃ e, homeRoute cfg = .error e ∧ e.status = 500) ∧
      (∃ e, loginRoute cfg scopes nonce = .error e ∧ e.status = 500) ∧
      (∃ e, (oauth_callback cfg nonce t code state error ed now up).1 = .httpError e ∧
        e.status = 500)) ∧
    (statusRoute cfg scopes t).redirect_uri = get_redirect_uri cfg := by
  refine ⟨?_, ?_, ?_, ?_, ?_, ?_, ?_, ?_, rfl⟩
  · intro h; simp [get_redirect_uri, h]
  · intro h1 h2; simp [get_redirect_uri, h1, h2]
  · intro h1 h2; simp [get_redirect_uri, h1, h2]
  · rw [require_env_missing_mem]; simp
  · rw [require_env_missing_mem]; simp
  · rw [require_env_missing_mem]; simp
  · rw [require_env_missing_mem]; simp
  · intro h
    have he := require_env_error_of_missing cfg h
    refine ⟨⟨⟨500, "Faltando variaveis de ambiente: " ++
        String.intercalate ", " (require_env_missing cfg)⟩, ?_, rfl⟩,
      ⟨⟨500, "Faltando variaveis de ambiente: " ++
        String.intercalate ", " (require_env_missing cfg)⟩, ?_, rfl⟩,
      ⟨⟨500, "Faltando variaveis de ambiente: " ++
        String.intercalate ", " (require_env_missing cfg)⟩, ?_, rfl⟩⟩
    · simp [homeRoute, he]
    · simp [loginRoute, he]
    · simp [oauth_callback, he]

/-- Witness for C7 (amended) at a concrete incomplete configuration:
only the client secret is missing, and the guarded routes fail with
500. -/
theorem env_check_guards_oauth_routes_witness :
    get_redirect_uri ⟨"id1", "", "", "https://base"⟩ = "https://base/oauth/callback" ∧
    ("META_APP_SECRET" ∈ require_env_missing ⟨"id1", "", "", "https://base"⟩) ∧
    (∃ e, homeRoute ⟨"id1", "", "", "https://base"⟩ = .error e ∧ e.status = 500) ∧
    (∃ e, loginRoute ⟨"id1", "", "", "https://base"⟩ "s" "N" = .error e ∧ e.status = 500) ∧
    (∃ e, (oauth_callback ⟨"id1", "", "", "https://base"⟩ "N" initTokens
        (some "abc") (some "N") none none 7 ⟨.ok (some "U1"), .ok []⟩).1 = .httpError e ∧
      e.status = 500) := by
  have h := env_check_guards_oauth_routes ⟨"id1", "", "", "https://base"⟩ "s" "N"
    initTokens (some "abc") (some "N") none none 7 ⟨.ok (some "U1"), .ok []⟩
  have hg := h.2.2.2.2.2.2.2.1 (by decide)
  exact ⟨h.2.1 (by decide) (by decide), h.2.2.2.2.1.mp rfl, hg.1, hg.2.1, hg.2.2⟩

/-- C8: `/publish` has no partial-success state: a successful response
carries exactly the container id of the successful create step and the
media id of the successful commit step (and the wait, when run,
finished); a failed container-create aborts before any status poll or
commit call; a failed processing wait surfaces that failure and never
issues the publish-commit call; and the publish-commit call is only ever
issued with the wait skipped or finished. -/
theorem publish_pipeline_atomicity (tokens : Tokens)
    (payload : PublishPayload) (up : PublishUpstream) :
    (∀ r, (publishRoute tokens payload up).1 = .ok r →
      create_container up.create_resp = .ok r.container_id ∧
      publish_container up.publish_resp = .ok r.media_id ∧
      (publishDoWait payload = true →
        (wait_container WAIT_TIMEOUT_SEC WAIT_POLL_SEC 0 up.polls).1 = .finished) ∧
      Call.mediaPublish ∈ (publishRoute tokens payload up).2) ∧
    ((∃ e, create_container up.create_resp = .error e) →
      Call.statusPoll ∉ (publishRoute tokens payload up).2 ∧
      Call.mediaPublish ∉ (publishRoute tokens payload up).2) ∧
    (∀ e n, publishDoWait payload = true →
      wait_container WAIT_TIMEOUT_SEC WAIT_POLL_SEC 0 up.polls = (.failed e, n) →
      Call.mediaPublish ∉ (publishRoute tokens payload up).2 ∧
      (Call.statusPoll ∈ (publishRoute tokens payload up).2 →
        (publishRoute tokens payload up).1 = .err e)) ∧
    (Call.mediaPublish ∈ (publishRoute tokens payload up).2 →
      publishDoWait payload = false ∨
      (wait_container WAIT_TIMEOUT_SEC WAIT_POLL_SEC 0 up.polls).1 = .finished) := by
  by_cases hauth : (truthyS tokens.page_access_token && truthyS tokens.ig_user_id) = true
  case neg =>
    have hpr : publishRoute tokens payload up =
        (.err ⟨401, "Sem tokens. Acesse login primeiro."⟩, []) := by
      simp [publishRoute, hauth]
    simp [hpr]
  case pos =>
  by_cases hmt : mediaTypeValid (publishMediaType payload) = true
  case neg =>
    have hpr : publishRoute tokens payload up =
        (.err ⟨400, "media_type invalido. Use REELS, VIDEO ou STORIES."⟩, []) := by
      simp [publishRoute, hauth, hmt]
    simp [hpr]
  case pos =>
  by_cases hurl : pyStartsWith (publishVideoUrl payload) "https://" = true
  case neg =>
    have hpr : publishRoute tokens payload up =
        (.err ⟨400, "video_url precisa ser https e publico (Meta tem que acessar)."⟩, []) := by
      simp [publishRoute, hauth, hmt, hurl]
    simp [hpr]
  case pos =>
  rcases hc : create_container up.create_resp with e0 | cid
  · have hpr : publishRoute tokens payload up =
        (.err e0, [.createContainer (create_container_data (publishMediaType payload)
          (publishVideoUrl payload) (tokens.page_access_token.getD "")
          (publishCaption payload) (publishShareToFeed payload))]) := by
      simp [publishRoute, hauth, hmt, hurl, hc]
    refine ⟨?_, ?_, ?_, ?_⟩
    · intro r hr; rw [hpr] at hr; simp at hr
    · intro _; rw [hpr]; simp
    · intro e n hw hwc; rw [hpr]; simp
    · intro hmem; rw [hpr] at hmem; simp at hmem
  · by_cases hw : publishDoWait payload = true
    case neg =>
      have hpr : publishRoute tokens payload up =
          (publishCommit (publishMediaType payload) cid up.publish_resp,
            [.createContainer (create_container_data (publishMediaType payload)
              (publishVideoUrl payload) (tokens.page_access_token.getD "")
              (publishCaption payload) (publishShareToFeed payload)), .mediaPublish]) := by
        simp [publishRoute, hauth, hmt, hurl, hc, hw]
      refine ⟨?_, ?_, ?_, ?_⟩
      · intro r hr
        rw [hpr] at hr
        rcases hcm : publish_container up.publish_resp with e1 | mid
        · simp [publishCommit, hcm] at hr
        · simp only [publishCommit, hcm] at hr
          cases hr
          exact ⟨rfl, rfl, fun hwt => absurd hwt hw, by rw [hpr]; simp⟩
      · rintro ⟨e, he⟩; cases he
      · intro e n hwt _; exact absurd hwt hw
      · intro _; left; simpa using hw
    case pos =>
      rcases hwc : wait_container WAIT_TIMEOUT_SEC WAIT_POLL_SEC 0 up.polls with ⟨wr, n0⟩
      cases wr
      case finished =>
        have hpr : publishRoute tokens payload up =
            (publishCommit (publishMediaType payload) cid up.publish_resp,
              .createContainer (create_container_data (publishMediaType payload)
                (publishVideoUrl payload) (tokens.page_access_token.getD "")
                (publishCaption payload) (publishShareToFeed payload)) ::
                (List.replicate n0 .statusPoll ++ [.mediaPublish])) := by
          simp [publishRoute, hauth, hmt, hurl, hc, hw, hwc]
        refine ⟨?_, ?_, ?_, ?_⟩
        · intro r hr
          rw [hpr] at hr
          rcases hcm : publish_container up.publish_resp with e1 | mid
          · simp [publishCommit, hcm] at hr
          · simp only [publishCommit, hcm] at hr
            cases hr
            exact ⟨rfl, rfl, fun _ => rfl, by rw [hpr]; simp⟩
        · rintro ⟨e, he⟩; cases he
        · intro e n hwt hwcf; simp at hwcf
        · intro _; right; rfl
      case failed e0 =>
        have hpr : publishRoute tokens payload up =
            (.err e0, .createContainer (create_container_data (publishMediaType payload)
              (publishVideoUrl payload) (tokens.page_access_token.getD "")
              (publishCaption payload) (publishShareToFeed payload)) ::
              List.replicate n0 .statusPoll) := by
          simp [publishRoute, hauth, hmt, hurl, hc, hw, hwc]
        refine ⟨?_, ?_, ?_, ?_⟩
        · intro r hr; rw [hpr] at hr; simp at hr
        · rintro ⟨e, he⟩; cases he
        · intro e n hwt hwcf
          injection hwcf with hfst hsnd
          injection hfst with he0
          subst he0
          constructor
          · rw [hpr]; simp [List.mem_replicate]
          · intro _; rw [hpr]
        · intro hmem; rw [hpr] at hmem; simp [List.mem_replicate] at hmem
      case fuelOut =>
        have hpr : publishRoute tokens payload up =
            (.diverges, .createContainer (create_container_data (publishMediaType payload)
              (publishVideoUrl payload) (tokens.page_access_token.getD "")
              (publishCaption payload) (publishShareToFeed payload)) ::
              List.replicate n0 .statusPoll) := by
          simp [publishRoute, hauth, hmt, hurl, hc, hw, hwc]
        refine ⟨?_, ?_, ?_, ?_⟩
        · intro r hr; rw [hpr] at hr; simp at hr
        · rintro ⟨e, he⟩; cases he
        · intro e n hwt hwcf; simp at hwcf
        · intro hmem; rw [hpr] at hmem; simp [List.mem_replicate] at hmem

/-- Witness for C8: a failed processing wait (`ERROR` status) aborts the
pipeline with the 400 and the publish-commit call is never issued. -/
theorem publish_pipeline_atomicity_witness :
    Call.mediaPublish ∉ (publishRoute ⟨some "U1", some "P1", some "ig1", some "pg1", some 7⟩
        ⟨some "REELS", some "https://x/v.mp4", none, none, none⟩
        ⟨.ok (some "C1"), [⟨.ok (some "ERROR"), 1⟩], .ok (some "M1")⟩).2 ∧
    (publishRoute ⟨some "U1", some "P1", some "ig1", some "pg1", some 7⟩
        ⟨some "REELS", some "https://x/v.mp4", none, none, none⟩
        ⟨.ok (some "C1"), [⟨.ok (some "ERROR"), 1⟩], .ok (some "M1")⟩).1 =
      .err ⟨400, "Processamento falhou"⟩ := by
  have h := publish_pipeline_atomicity
    ⟨some "U1", some "P1", some "ig1", some "pg1", some 7⟩
    ⟨some "REELS", some "https://x/v.mp4", none, none, none⟩
    ⟨.ok (some "C1"), [⟨.ok (some "ERROR"), 1⟩], .ok (some "M1")⟩
  have hc := h.2.2.1 ⟨400, "Processamento falhou"⟩ 1 rfl (by decide)
  exact ⟨hc.1, hc.2 (by decide)⟩

end IGPublisher
